import Mathlib

/-!
# Verification of the 60-days-of-Go exercises

Shallow embedding of the parts of the repository that the specification's
claims are about:

* the discount / `Order` example (`src/unnamed/part_000`): `Customer`,
  `LineItem`, `Order`, the three promo functions;
* the day13 cards CRUD service (`src/day13/main.go`): the six HTTP
  handlers, the route table built in `main`, and a model of the in-memory
  database package;
* the day02 FizzBuzz channel handshake (`src/Day02/fizzbuzz_test.go`):
  a small-step semantics of the two goroutines communicating over two
  unbuffered channels.

Go `float64` values are modelled by exact rationals (`ℚ`); Go `int` and
`int64` by `Int`.
-/

namespace SixtyDays

/-! ## Discount / Order example (`src/unnamed/part_000`) -/

/-- `Customer` struct: name and fidelity points. -/
structure Customer where
  name : String
  fidelity : Int
  deriving Repr, DecidableEq

/-- `LineItem` struct: an item in a cart. -/
structure LineItem where
  product : String
  quantity : Int
  price : ℚ
  deriving Repr, DecidableEq

/-- `func (item LineItem) Total() float64 { return float64(item.quantity) * item.price }` -/
def LineItem.Total (item : LineItem) : ℚ :=
  (item.quantity : ℚ) * item.price

/-- `Order` struct.  In Go the struct also carries the field
`promo func(Order) float64`; a function from `Order` cannot occur inside
`Order` in Lean (negative occurrence), so the promo is passed to
`Order.Due` as a separate `Option`-valued argument, `none` standing for
Go's `nil` function value. -/
structure Order where
  ctm : Customer
  cart : List LineItem

/-- `func (order Order) Total() float64`: loop `total += item.Total()`
starting from `0.0`. -/
def Order.Total (order : Order) : ℚ :=
  order.cart.foldl (fun total item => total + item.Total) 0

/-- `func (order Order) Due() float64`: `discount := 0.0`; if the promo
is non-nil, `discount = order.promo(order)`; result `order.Total() - discount`. -/
def Order.Due (order : Order) (promo : Option (Order → ℚ)) : ℚ :=
  match promo with
  | none => order.Total - 0
  | some p => order.Total - p order

/-- `func FidelityPromo(o Order) float64`: 5% of the total for customers
with at least 1000 fidelity points. -/
def FidelityPromo (o : Order) : ℚ :=
  if 1000 ≤ o.ctm.fidelity then o.Total * (5 / 100) else 0

/-- `func BulkItemPromo(o Order) float64`: 10% discount on every line
item with at least 20 units. -/
def BulkItemPromo (o : Order) : ℚ :=
  o.cart.foldl (fun discount item =>
    if 20 ≤ item.quantity then discount + item.Total * (1 / 10) else discount) 0

/-- `func LargeOrderPromo(o Order) float64`: 7% of the total when the
cart has at least 10 distinct products (the Go code collects the product
names in a `map[string]bool` and checks its size). -/
def LargeOrderPromo (o : Order) : ℚ :=
  if 10 ≤ (o.cart.map LineItem.product).dedup.length then o.Total * (7 / 100) else 0

lemma foldl_total_eq (cart : List LineItem) (a : ℚ) :
    cart.foldl (fun total item => total + item.Total) a
      = a + (cart.map LineItem.Total).sum := by
  induction cart generalizing a with
  | nil => simp
  | cons i rest ih =>
    simp only [List.foldl_cons, List.map_cons, List.sum_cons]
    rw [ih]
    ring

lemma Order.Total_eq_sum (o : Order) :
    o.Total = (o.cart.map LineItem.Total).sum := by
  simpa using foldl_total_eq o.cart 0

/-- **C1.** `Order.Total()` is the sum over the cart of quantity times
price for each `LineItem` (with `LineItem.Total() = quantity * price`);
`Order.Due()` is `Total()` minus `promo(order)` when the promo function
is non-nil, and `Total()` when the promo is nil. -/
theorem order_total_and_due (o : Order) (p : Order → ℚ) :
    o.Total = (o.cart.map (fun i => (i.quantity : ℚ) * i.price)).sum ∧
    (∀ i : LineItem, i.Total = (i.quantity : ℚ) * i.price) ∧
    o.Due (some p) = o.Total - p o ∧
    o.Due none = o.Total := by
  refine ⟨?_, fun i => rfl, rfl, ?_⟩
  · rw [Order.Total_eq_sum]
    rfl
  · simp [Order.Due]

lemma foldl_bulk_eq (cart : List LineItem) (a : ℚ) :
    cart.foldl (fun discount item =>
      if 20 ≤ item.quantity then discount + item.Total * (1 / 10) else discount) a
      = a + (cart.map (fun item =>
          if 20 ≤ item.quantity then item.Total * (1 / 10) else 0)).sum := by
  induction cart generalizing a with
  | nil => simp
  | cons i rest ih =>
    simp only [List.foldl_cons, List.map_cons, List.sum_cons]
    rw [ih]
    split_ifs <;> ring

lemma lineItem_total_nonneg {i : LineItem} (h1 : 0 ≤ i.quantity) (h2 : 0 ≤ i.price) :
    0 ≤ i.Total :=
  mul_nonneg (by exact_mod_cast h1) h2

lemma order_total_nonneg (o : Order)
    (h : ∀ i ∈ o.cart, 0 ≤ i.quantity ∧ 0 ≤ i.price) : 0 ≤ o.Total := by
  rw [Order.Total_eq_sum]
  apply List.sum_nonneg
  intro x hx
  obtain ⟨i, hi, rfl⟩ := List.mem_map.1 hx
  exact lineItem_total_nonneg (h i hi).1 (h i hi).2

lemma FidelityPromo_bounds (o : Order)
    (h : ∀ i ∈ o.cart, 0 ≤ i.quantity ∧ 0 ≤ i.price) :
    0 ≤ FidelityPromo o ∧ FidelityPromo o ≤ o.Total := by
  have hT := order_total_nonneg o h
  unfold FidelityPromo
  split_ifs
  · exact ⟨mul_nonneg hT (by norm_num), mul_le_of_le_one_right hT (by norm_num)⟩
  · exact ⟨le_refl 0, hT⟩

lemma LargeOrderPromo_bounds (o : Order)
    (h : ∀ i ∈ o.cart, 0 ≤ i.quantity ∧ 0 ≤ i.price) :
    0 ≤ LargeOrderPromo o ∧ LargeOrderPromo o ≤ o.Total := by
  have hT := order_total_nonneg o h
  unfold LargeOrderPromo
  split_ifs
  · exact ⟨mul_nonneg hT (by norm_num), mul_le_of_le_one_right hT (by norm_num)⟩
  · exact ⟨le_refl 0, hT⟩

lemma BulkItemPromo_bounds (o : Order)
    (h : ∀ i ∈ o.cart, 0 ≤ i.quantity ∧ 0 ≤ i.price) :
    0 ≤ BulkItemPromo o ∧ BulkItemPromo o ≤ o.Total := by
  have hB : BulkItemPromo o = (o.cart.map (fun item =>
      if 20 ≤ item.quantity then item.Total * (1 / 10) else 0)).sum := by
    unfold BulkItemPromo
    simpa using foldl_bulk_eq o.cart 0
  constructor
  · rw [hB]
    apply List.sum_nonneg
    intro x hx
    obtain ⟨i, hi, rfl⟩ := List.mem_map.1 hx
    have ht := lineItem_total_nonneg (h i hi).1 (h i hi).2
    split_ifs
    · exact mul_nonneg ht (by norm_num)
    · exact le_refl 0
  · rw [hB, Order.Total_eq_sum]
    apply List.sum_le_sum
    intro i hi
    have ht := lineItem_total_nonneg (h i hi).1 (h i hi).2
    split_ifs
    · exact mul_le_of_le_one_right ht (by norm_num)
    · exact ht

/-- **C7.** For an order whose line items all have nonnegative quantity
and nonnegative price, each of `FidelityPromo`, `BulkItemPromo` and
`LargeOrderPromo` returns a discount `d` with `0 ≤ d ≤ Order.Total()`,
hence `0 ≤ Order.Due() ≤ Order.Total()` when the promo is one of the
three. -/
theorem promos_bounded (o : Order)
    (h : ∀ i ∈ o.cart, 0 ≤ i.quantity ∧ 0 ≤ i.price) :
    (0 ≤ FidelityPromo o ∧ FidelityPromo o ≤ o.Total) ∧
    (0 ≤ BulkItemPromo o ∧ BulkItemPromo o ≤ o.Total) ∧
    (0 ≤ LargeOrderPromo o ∧ LargeOrderPromo o ≤ o.Total) ∧
    (0 ≤ o.Due (some FidelityPromo) ∧ o.Due (some FidelityPromo) ≤ o.Total) ∧
    (0 ≤ o.Due (some BulkItemPromo) ∧ o.Due (some BulkItemPromo) ≤ o.Total) ∧
    (0 ≤ o.Due (some LargeOrderPromo) ∧ o.Due (some LargeOrderPromo) ≤ o.Total) := by
  obtain ⟨hf1, hf2⟩ := FidelityPromo_bounds o h
  obtain ⟨hb1, hb2⟩ := BulkItemPromo_bounds o h
  obtain ⟨hl1, hl2⟩ := LargeOrderPromo_bounds o h
  refine ⟨⟨hf1, hf2⟩, ⟨hb1, hb2⟩, ⟨hl1, hl2⟩, ?_, ?_, ?_⟩ <;>
    constructor <;> simp only [Order.Due] <;> linarith

/-- A sample order used to instantiate `promos_bounded`. -/
def sampleOrder : Order :=
  { ctm := { name := "Ann", fidelity := 1100 },
    cart := [{ product := "banana", quantity := 4, price := 2 }] }

/-- Witness for **C7** at a concrete order. -/
theorem promos_bounded_witness :
    (0 ≤ FidelityPromo sampleOrder ∧ FidelityPromo sampleOrder ≤ sampleOrder.Total) ∧
    (0 ≤ BulkItemPromo sampleOrder ∧ BulkItemPromo sampleOrder ≤ sampleOrder.Total) :=
  ⟨(promos_bounded sampleOrder (by decide)).1,
   (promos_bounded sampleOrder (by decide)).2.1⟩

/-! ## Day13 cards CRUD service (`src/day13/main.go`)

The handlers of `main.go` are embedded as pure functions.  A handler's
observable effects are the HTTP status codes it writes through
`RenderJSON` (collected in order in a `List Nat`) and the resulting
database state.  `strconv.ParseInt` of the `{id}` path variable is
represented by an `Option Int` argument (`none` = parse error; Go's
`ParseInt` also returns the value `0` in that case), and
`json.NewDecoder(r.Body).Decode(&card)` by an `Option Card` argument
(`none` = decode error).  The third-party validator
`valid.ValidateStruct` is an arbitrary `Card → Bool` parameter. -/

/-- Modelled from the spec: the `day13/cards` package is not under
`src/`; the spec says only that a `Card` record exists.  Modelled as an
integer `ID` (set by the handlers from the path) plus one content
field. -/
structure Card where
  ID : Int
  name : String
  deriving Repr, DecidableEq

/-- Modelled from the spec: the `day13/database` package
(`database.NewMemoryDB`) is not under `src/`; the spec describes it as an
unsynchronized in-memory map.  Modelled as an association list from card
id to card. -/
abbrev DB := List (Int × Card)

/-- Whether the map has an entry with the given id. -/
def DB.hasId (db : DB) (id : Int) : Bool :=
  db.any (fun p => p.1 == id)

/-- The database error `database.ErrCardNotFound`; the in-memory map
produces no other error, so the `default:` (500) branches of the Go
switches are unreachable for database errors. -/
inductive DBErr where
  | cardNotFound
  deriving Repr, DecidableEq

/-- Modelled from the spec: `db.GetCard(id)` looks the id up in the
in-memory map, `ErrCardNotFound` when absent.  (The Go handler calls it
as the unexported `db.getCard`.) -/
def DB.GetCard (db : DB) (id : Int) : Except DBErr Card :=
  match db.find? (fun p => p.1 == id) with
  | some p => .ok p.2
  | none => .error .cardNotFound

/-- Modelled from the spec: `db.CreateCard(&card)` stores the card in
the in-memory map; it always succeeds. -/
def DB.CreateCard (db : DB) (card : Card) : DB :=
  db ++ [(card.ID, card)]

/-- Modelled from the spec: `db.UpdateCard(&card)` replaces the entry
whose id is `card.ID`, returning the updated card, or `ErrCardNotFound`
when the id is absent. -/
def DB.UpdateCard (db : DB) (card : Card) : Except DBErr (Card × DB) :=
  if db.hasId card.ID then
    .ok (card, db.map (fun p => if p.1 == card.ID then (p.1, card) else p))
  else
    .error .cardNotFound

/-- Modelled from the spec: `db.RemoveCard(id)` deletes the entry with
the given id, or returns `ErrCardNotFound` when the id is absent. -/
def DB.RemoveCard (db : DB) (id : Int) : Except DBErr DB :=
  if db.hasId id then
    .ok (db.filter (fun p => !(p.1 == id)))
  else
    .error .cardNotFound

/-- Modelled from the spec: `db.AllCards()` lists the stored cards. -/
def DB.AllCards (db : DB) : List Card :=
  db.map Prod.snd

/-- `func createCard`: decode the body (422 on failure), validate
(400 on failure), otherwise create the card and answer 201. -/
def createCard (validate : Card → Bool) (body : Option Card) (db : DB) :
    List Nat × DB :=
  match body with
  | none => ([422], db)
  | some card =>
    if validate card then ([201], db.CreateCard card)
    else ([400], db)

/-- `func allCards`: list all cards with status 200. -/
def allCards (db : DB) : List Nat × DB :=
  ([200], db)

/-- `func getCard`: 500 when the id does not parse, else 404 when the
card is absent and 200 when present. -/
def getCard (idP : Option Int) (db : DB) : List Nat × DB :=
  match idP with
  | none => ([500], db)
  | some id =>
    match db.GetCard id with
    | .error .cardNotFound => ([404], db)
    | .ok _ => ([200], db)

/-- `func deleteCart` (sic): on an id parse failure it writes a 500
response but — unlike every other handler — does not `return`, so it
falls through to `db.RemoveCard` with the zero value `id = 0` that Go's
`ParseInt` returns on error, and writes a second response. -/
def deleteCart (idP : Option Int) (db : DB) : List Nat × DB :=
  let pre : List Nat := match idP with | none => [500] | some _ => []
  let id : Int := match idP with | none => 0 | some i => i
  match db.RemoveCard id with
  | .error .cardNotFound => (pre ++ [404], db)
  | .ok db2 => (pre ++ [204], db2)

/-- `func updateCard`: 500 when the id does not parse, 422 when the body
does not decode; then `valid.ValidateStruct(card)` runs on the decoded
card, after which `card.ID` is overwritten with the path id; on
validation success the store is updated (404 when the id is absent, 200
on success), on failure the handler answers 400. -/
def updateCard (validate : Card → Bool) (idP : Option Int) (body : Option Card)
    (db : DB) : List Nat × DB :=
  match idP with
  | none => ([500], db)
  | some id =>
    match body with
    | none => ([422], db)
    | some card0 =>
      let result := validate card0
      let card := { card0 with ID := id }
      if result then
        match db.UpdateCard card with
        | .error .cardNotFound => ([404], db)
        | .ok (_, db2) => ([200], db2)
      else ([400], db)

/-- `func partialUpdateCard`: 500 when the id does not parse, 422 when
the body does not decode; `card.ID` is overwritten with the path id and
the store is updated directly — no call to `valid.ValidateStruct`. -/
def partialUpdateCard (idP : Option Int) (body : Option Card) (db : DB) :
    List Nat × DB :=
  match idP with
  | none => ([500], db)
  | some id =>
    match body with
    | none => ([422], db)
    | some card0 =>
      let card := { card0 with ID := id }
      match db.UpdateCard card with
      | .error .cardNotFound => ([404], db)
      | .ok (_, db2) => ([200], db2)

/-- One `r.HandleFunc(path, handler).Methods(method)` registration. -/
structure Route where
  method : String
  path : String
  handler : String
  deriving Repr, DecidableEq

/-- The route table built in `func main` of day13, line by line.  The
handler names are the identifiers as written in the source (`deleteCard`
and `partialUPdateCard` do not match the declared functions `deleteCart`
and `partialUpdateCard`), and the first path is the string `"cards"`
exactly as written — without a leading slash. -/
def routeTable : List Route :=
  [{ method := "POST", path := "cards", handler := "createCard" },
   { method := "GET", path := "/cards", handler := "allCards" },
   { method := "GET", path := "/cards/\x7bid:[0-9]+\x7d", handler := "getCard" },
   { method := "DELETE", path := "/cards/\x7bid:[0-9]+\x7d", handler := "deleteCard" },
   { method := "PUT", path := "/cards/\x7bid:[0-9]+\x7d", handler := "updateCard" },
   { method := "PATCH", path := "/cards/\x7bid:[0-9]+\x7d", handler := "partialUPdateCard" }]

/-- The status codes the spec allows the cards service to produce. -/
def okStatuses : List Nat := [200, 201, 204, 400, 404, 422, 500]

lemma createCard_statuses (validate : Card → Bool) (body : Option Card) (db : DB) :
    ∀ s ∈ (createCard validate body db).1, s ∈ okStatuses := by
  intro s hs
  rcases body with _ | c
  · simp [createCard] at hs
    subst hs; decide
  · by_cases hv : validate c = true
    · simp [createCard, hv] at hs
      subst hs; decide
    · simp [createCard, hv] at hs
      subst hs; decide

lemma getCard_statuses (idP : Option Int) (db : DB) :
    ∀ s ∈ (getCard idP db).1, s ∈ okStatuses := by
  intro s hs
  rcases idP with _ | id
  · simp [getCard] at hs
    subst hs; decide
  · cases hg : db.GetCard id with
    | error e =>
      cases e
      simp [getCard, hg] at hs
      subst hs; decide
    | ok c =>
      simp [getCard, hg] at hs
      subst hs; decide

lemma deleteCart_statuses (idP : Option Int) (db : DB) :
    ∀ s ∈ (deleteCart idP db).1, s ∈ okStatuses := by
  intro s hs
  rcases idP with _ | id
  · cases hr : db.RemoveCard 0 with
    | error e =>
      cases e
      simp [deleteCart, hr] at hs
      rcases hs with hs | hs <;> (subst hs; decide)
    | ok db2 =>
      simp [deleteCart, hr] at hs
      rcases hs with hs | hs <;> (subst hs; decide)
  · cases hr : db.RemoveCard id with
    | error e =>
      cases e
      simp [deleteCart, hr] at hs
      subst hs; decide
    | ok db2 =>
      simp [deleteCart, hr] at hs
      subst hs; decide

lemma updateCard_statuses (validate : Card → Bool) (idP : Option Int)
    (body : Option Card) (db : DB) :
    ∀ s ∈ (updateCard validate idP body db).1, s ∈ okStatuses := by
  intro s hs
  rcases idP with _ | id
  · simp [updateCard] at hs
    subst hs; decide
  · rcases body with _ | c
    · simp [updateCard] at hs
      subst hs; decide
    · by_cases hv : validate c = true
      · cases hg : db.UpdateCard { c with ID := id } with
        | error e =>
          cases e
          simp [updateCard, hv, hg] at hs
          subst hs; decide
        | ok out =>
          obtain ⟨c2, db2⟩ := out
          simp [updateCard, hv, hg] at hs
          subst hs; decide
      · simp [updateCard, hv] at hs
        subst hs; decide

lemma partialUpdateCard_statuses (idP : Option Int) (body : Option Card) (db : DB) :
    ∀ s ∈ (partialUpdateCard idP body db).1, s ∈ okStatuses := by
  intro s hs
  rcases idP with _ | id
  · simp [partialUpdateCard] at hs
    subst hs; decide
  · rcases body with _ | c
    · simp [partialUpdateCard] at hs
      subst hs; decide
    · cases hg : db.UpdateCard { c with ID := id } with
      | error e =>
        cases e
        simp [partialUpdateCard, hg] at hs
        subst hs; decide
      | ok out =>
        obtain ⟨c2, db2⟩ := out
        simp [partialUpdateCard, hg] at hs
        subst hs; decide

/-- **C2.** Every response any day13 handler writes has a status code in
{200, 201, 204, 400, 404, 422, 500}; `createCard` answers 201 on
success, 422 on a body that does not decode and 400 on validation
failure; the id-based handlers answer 404 when the card id is not found,
200 (204 for delete) on success, and 500 otherwise (id parse failure). -/
theorem handler_status_codes (validate : Card → Bool) (idP : Option Int)
    (body : Option Card) (db : DB) :
    ((∀ s ∈ (createCard validate body db).1, s ∈ okStatuses) ∧
     (∀ s ∈ (allCards db).1, s ∈ okStatuses) ∧
     (∀ s ∈ (getCard idP db).1, s ∈ okStatuses) ∧
     (∀ s ∈ (deleteCart idP db).1, s ∈ okStatuses) ∧
     (∀ s ∈ (updateCard validate idP body db).1, s ∈ okStatuses) ∧
     (∀ s ∈ (partialUpdateCard idP body db).1, s ∈ okStatuses)) ∧
    (createCard validate none db).1 = [422] ∧
    (∀ c, validate c = true → (createCard validate (some c) db).1 = [201]) ∧
    (∀ c, validate c = false → (createCard validate (some c) db).1 = [400]) ∧
    (allCards db).1 = [200] ∧
    (getCard none db).1 = [500] ∧
    (∀ id, db.GetCard id = .error .cardNotFound → (getCard (some id) db).1 = [404]) ∧
    (∀ id c, db.GetCard id = .ok c → (getCard (some id) db).1 = [200]) ∧
    (∀ id, db.RemoveCard id = .error .cardNotFound → (deleteCart (some id) db).1 = [404]) ∧
    (∀ id db2, db.RemoveCard id = .ok db2 → (deleteCart (some id) db).1 = [204]) ∧
    (updateCard validate none body db).1 = [500] ∧
    (partialUpdateCard none body db).1 = [500] ∧
    (∀ id c, validate c = true →
      db.UpdateCard { c with ID := id } = .error .cardNotFound →
      (updateCard validate (some id) (some c) db).1 = [404]) ∧
    (∀ id c out, validate c = true →
      db.UpdateCard { c with ID := id } = .ok out →
      (updateCard validate (some id) (some c) db).1 = [200]) ∧
    (∀ id c, db.UpdateCard { c with ID := id } = .error .cardNotFound →
      (partialUpdateCard (some id) (some c) db).1 = [404]) ∧
    (∀ id c out, db.UpdateCard { c with ID := id } = .ok out →
      (partialUpdateCard (some id) (some c) db).1 = [200]) := by
  refine ⟨⟨createCard_statuses validate body db, ?_, getCard_statuses idP db,
      deleteCart_statuses idP db, updateCard_statuses validate idP body db,
      partialUpdateCard_statuses idP body db⟩,
    rfl, ?_, ?_, rfl, rfl, ?_, ?_, ?_, ?_, rfl, rfl, ?_, ?_, ?_, ?_⟩
  · intro s hs
    simp [allCards] at hs
    subst hs; decide
  · intro c hv
    simp [createCard, hv]
  · intro c hv
    simp [createCard, hv]
  · intro id hg
    simp [getCard, hg]
  · intro id c hg
    simp [getCard, hg]
  · intro id hr
    simp [deleteCart, hr]
  · intro id db2 hr
    simp [deleteCart, hr]
  · intro id c hv hg
    simp [updateCard, hv, hg]
  · intro id c out hv hg
    obtain ⟨c2, db2⟩ := out
    simp [updateCard, hv, hg]
  · intro id c hg
    simp [partialUpdateCard, hg]
  · intro id c out hg
    obtain ⟨c2, db2⟩ := out
    simp [partialUpdateCard, hg]

/-- Witness for **C2**: two of the conditional conjuncts instantiated
at concrete inputs. -/
theorem handler_status_codes_witness :
    (createCard (fun _ => true) (some { ID := 1, name := "visa" }) ([] : DB)).1 = [201] ∧
    (deleteCart (some 1) ([] : DB)).1 = [404] := by
  obtain ⟨-, -, h201, -, -, -, -, -, h404, -⟩ :=
    handler_status_codes (fun _ => true) (some 1)
      (some { ID := 1, name := "visa" }) ([] : DB)
  exact ⟨h201 _ rfl, h404 1 rfl⟩

/-- **C8.** A `createCard` request whose body fails to decode gets a 422
response and leaves the database untouched. -/
theorem createCard_decode_error (validate : Card → Bool) (db : DB) :
    createCard validate none db = ([422], db) := rfl

/-- **C4 (failing input).** `deleteCart` on an id parse failure: the 500
response is followed by a second response, obtained by running
`db.RemoveCard` with the fallback id 0 — on the empty store a second
404, on a store holding card 0 a second 204 together with a store
mutation.  The other handlers return immediately after an error. -/
theorem deleteCart_missing_return :
    deleteCart none ([] : DB) = ([500, 404], ([] : DB)) ∧
    deleteCart none [((0 : Int), { ID := 0, name := "visa" })] = ([500, 204], ([] : DB)) := by
  constructor <;> rfl

/-- **C5 (failing input).** The route table as registered: the `POST`
registration uses the path string `"cards"`, which is not `"/cards"` —
the leading slash is missing in the source. -/
theorem route_paths_eval :
    routeTable.map (fun r => (r.method, r.path))
      = [("POST", "cards"), ("GET", "/cards"),
         ("GET", "/cards/\x7bid:[0-9]+\x7d"), ("DELETE", "/cards/\x7bid:[0-9]+\x7d"),
         ("PUT", "/cards/\x7bid:[0-9]+\x7d"), ("PATCH", "/cards/\x7bid:[0-9]+\x7d")] ∧
    ("cards" : String) ≠ "/cards" := by
  exact ⟨rfl, by decide⟩

/-- **C6 (counterexample).** The day13 route table does not use exactly
four distinct HTTP verbs. -/
theorem route_methods_not_four :
    ¬ (routeTable.map Route.method).dedup.length = 4 := by
  decide

/-- **C6 (amended).** The day13 route table uses exactly five distinct
HTTP verbs — POST, GET, DELETE, PUT, PATCH. -/
theorem route_methods_five :
    (routeTable.map Route.method).dedup.length = 5 ∧
    routeTable.all
      (fun r => (["POST", "GET", "DELETE", "PUT", "PATCH"].contains r.method)) = true := by
  constructor <;> decide

/-- **C3 (counterexample).** A PATCH request through
`partialUpdateCard` mutates the store even under a validator that
rejects every card: the handler never calls `valid.ValidateStruct`. -/
theorem patch_mutates_without_validation :
    (fun _ => false : Card → Bool) { ID := 5, name := "visa" } = false ∧
    (partialUpdateCard (some 7) (some { ID := 5, name := "visa" })
        [((7 : Int), { ID := 7, name := "old" })]).2
      = [((7 : Int), { ID := 7, name := "visa" })] ∧
    ([((7 : Int), { ID := 7, name := "visa" })] : DB)
      ≠ [((7 : Int), { ID := 7, name := "old" })] := by
  refine ⟨rfl, rfl, by decide⟩

/-- **C3 (amended).** `createCard` (POST) and `updateCard` (PUT) pass
the decoded card through the validator and mutate the store only when
validation succeeds (on failure both answer 400 and leave the store as
is); `partialUpdateCard` (PATCH) performs no validation and carries out
the store update even when the validator rejects the card. -/
theorem validation_gates_store (validate : Card → Bool) (c : Card) (id : Int)
    (db : DB) (hv : validate c = false) :
    createCard validate (some c) db = ([400], db) ∧
    updateCard validate (some id) (some c) db = ([400], db) ∧
    (db.hasId id = true → (partialUpdateCard (some id) (some c) db).1 = [200]) := by
  refine ⟨?_, ?_, ?_⟩
  · simp [createCard, hv]
  · simp [updateCard, hv]
  · intro hid
    simp [partialUpdateCard, DB.UpdateCard, hid]

/-- Witness for **C3 (amended)** at a concrete input. -/
theorem validation_gates_store_witness :
    createCard (fun _ => false) (some { ID := 1, name := "visa" }) ([] : DB)
      = ([400], ([] : DB)) :=
  (validation_gates_store (fun _ => false) { ID := 1, name := "visa" } 1 [] rfl).1

/-- **C9.** In `updateCard` and `partialUpdateCard` the decoded body's
`ID` is overwritten with the path id before the store is touched: the
handler output is unchanged under any change of the body's `ID` field
(for `partialUpdateCard` literally; for `updateCard` the store either
stays as it was or is exactly the result of `db.UpdateCard` on the card
re-keyed to the path id, independently of the body's `ID`). -/
theorem id_overwritten_before_update (validate : Card → Bool) (id x : Int)
    (c : Card) (db : DB) :
    partialUpdateCard (some id) (some { c with ID := x }) db
      = partialUpdateCard (some id) (some c) db ∧
    ((updateCard validate (some id) (some c) db).2 = db ∨
      db.UpdateCard { c with ID := id }
        = .ok ({ c with ID := id }, (updateCard validate (some id) (some c) db).2)) ∧
    ((partialUpdateCard (some id) (some c) db).2 = db ∨
      db.UpdateCard { c with ID := id }
        = .ok ({ c with ID := id }, (partialUpdateCard (some id) (some c) db).2)) := by
  refine ⟨rfl, ?_, ?_⟩
  · by_cases hv : validate c = true
    · by_cases hid : db.hasId id = true
      · right
        simp [updateCard, DB.UpdateCard, hv, hid]
      · left
        rw [Bool.not_eq_true] at hid
        simp [updateCard, DB.UpdateCard, hv, hid]
    · rw [Bool.not_eq_true] at hv
      left
      simp [updateCard, hv]
  · by_cases hid : db.hasId id = true
    · right
      simp [partialUpdateCard, DB.UpdateCard, hid]
    · left
      rw [Bool.not_eq_true] at hid
      simp [partialUpdateCard, DB.UpdateCard, hid]

/-! ## Day02 FizzBuzz channel handshake (`src/Day02/fizzbuzz_test.go`)

`TestFizz` makes two unbuffered channels `count : chan int` and
`message : chan string`, starts `go FizzBuzz(count, message)`, and for
each table entry does `count <- data.input` followed by
`actual := <-message`.  The two goroutines are modelled by a small-step
semantics: a step is a rendezvous on one of the two synchronous
channels, possible only when both sides are ready. -/

namespace FizzBuzzChan

/-- A communication event: a rendezvous on `count` carrying an integer,
or a rendezvous on `message` carrying a string. -/
inductive Ev where
  | sent (n : Int)
  | received (s : String)
  deriving Repr, DecidableEq

/-- The test goroutine: the table inputs not yet sent, and whether it
has sent an input and is now blocked on `<-message`. -/
structure TestG where
  pending : List Int
  waiting : Bool
  deriving Repr, DecidableEq

/-- Modelled from the spec: the `FizzBuzz` worker function itself is not
under `src/` (only the test is); per the spec it is "a single worker
goroutine reading an integer channel and writing a string channel in a
loop".  It is either blocked reading `count` or blocked writing its
reply on `message`. -/
inductive WorkerG where
  | awaitingInput
  | replying (s : String)
  deriving Repr, DecidableEq

/-- The joint state of the two goroutines. -/
structure Sys where
  tester : TestG
  worker : WorkerG
  deriving Repr, DecidableEq

/-- One synchronous-channel rendezvous, for a worker whose reply to `n`
is `f n`.  A `count` rendezvous needs the test goroutine at a send with
an input left and the worker at `n := <-count`; a `message` rendezvous
needs the test goroutine blocked at `<-message` and the worker at
`message <- s`.  No other combined transition exists. -/
inductive Step (f : Int → String) : Sys → Ev → Sys → Prop where
  | count (n : Int) (rest : List Int) :
      Step f ⟨⟨n :: rest, false⟩, .awaitingInput⟩ (.sent n)
        ⟨⟨rest, true⟩, .replying (f n)⟩
  | message (s : String) (rest : List Int) :
      Step f ⟨⟨rest, true⟩, .replying s⟩ (.received s)
        ⟨⟨rest, false⟩, .awaitingInput⟩

/-- Reflexive-transitive closure of `Step`, recording the trace. -/
inductive Steps (f : Int → String) : Sys → List Ev → Sys → Prop where
  | nil (s : Sys) : Steps f s [] s
  | cons {s1 s2 s3 : Sys} {e : Ev} {es : List Ev} :
      Step f s1 e s2 → Steps f s2 es s3 → Steps f s1 (e :: es) s3

/-- The state at the top of the test loop with the given inputs still to
send: the test goroutine about to send, the worker at `<-count`. -/
def initSys (table : List Int) : Sys :=
  ⟨⟨table, false⟩, .awaitingInput⟩

/-- No rendezvous is possible. -/
def Stuck (f : Int → String) (s : Sys) : Prop :=
  ∀ e s2, ¬ Step f s e s2

/-- The alternating two-element-rendezvous trace: for each table entry
in order, one `count` rendezvous immediately answered by one `message`
rendezvous. -/
def handshakeTrace (f : Int → String) : List Int → List Ev
  | [] => []
  | n :: rest => Ev.sent n :: Ev.received (f n) :: handshakeTrace f rest

/-- **C10.** Every complete run of the day02 test loop with the worker
goroutine is the strict alternation: each table entry is sent in order,
the test goroutine blocks until the worker answers with exactly one
string, and the run ends with both goroutines blocked having exchanged
one reply per input, replies in the order the inputs were sent. -/
theorem fizzbuzz_rendezvous (f : Int → String) (table : List Int)
    (tr : List Ev) (s : Sys)
    (hs : Steps f (initSys table) tr s) (hstuck : Stuck f s) :
    tr = handshakeTrace f table ∧ s = initSys [] := by
  induction table generalizing tr with
  | nil =>
    cases hs with
    | nil => exact ⟨rfl, rfl⟩
    | cons h1 hs1 => cases h1
  | cons n rest ih =>
    cases hs with
    | nil => exact absurd (Step.count (f := f) n rest) (hstuck _ _)
    | cons h1 hs1 =>
      cases h1 with
      | count =>
        cases hs1 with
        | nil => exact absurd (Step.message (f := f) (f n) rest) (hstuck _ _)
        | cons h2 hs2 =>
          cases h2 with
          | message =>
            obtain ⟨htr, hfin⟩ := ih _ hs2
            exact ⟨by rw [handshakeTrace, htr], hfin⟩

/-- Witness for **C10**: the concrete `TestFizz` table `[3, 6, 9]`, with
a concrete reply function, runs to exactly the three alternating
handshakes. -/
theorem fizzbuzz_rendezvous_witness :
    Steps (fun _ => "Fizz") (initSys [3, 6, 9])
      [Ev.sent 3, Ev.received "Fizz", Ev.sent 6, Ev.received "Fizz",
       Ev.sent 9, Ev.received "Fizz"] (initSys []) ∧
    Stuck (fun _ => "Fizz") (initSys []) ∧
    [Ev.sent 3, Ev.received "Fizz", Ev.sent 6, Ev.received "Fizz",
       Ev.sent 9, Ev.received "Fizz"]
      = handshakeTrace (fun _ => "Fizz") [3, 6, 9] := by
  have hstep : Steps (fun _ => "Fizz") (initSys [3, 6, 9])
      [Ev.sent 3, Ev.received "Fizz", Ev.sent 6, Ev.received "Fizz",
       Ev.sent 9, Ev.received "Fizz"] (initSys []) := by
    refine Steps.cons (Step.count 3 [6, 9]) (Steps.cons (Step.message "Fizz" [6, 9])
      (Steps.cons (Step.count 6 [9]) (Steps.cons (Step.message "Fizz" [9])
        (Steps.cons (Step.count 9 []) (Steps.cons (Step.message "Fizz" [])
          (Steps.nil _))))))
  have hstuck : Stuck (fun _ => "Fizz") (initSys []) := by
    intro e s2 h
    cases h
  exact ⟨hstep, hstuck,
    (fizzbuzz_rendezvous (fun _ => "Fizz") [3, 6, 9] _ _ hstep hstuck).1⟩

end FizzBuzzChan

end SixtyDays
